import Mathlib

/-!
Verification development for the BlueSky source slice consisting of
`bluesky/ui/qtgl/guiio.py` (GuiClient / nodeData mirror) and
`bluesky/simulation/qtgl/simulation.py` (Simulation engine).

Python floats are modelled as `ℚ`, numpy float arrays as `List ℚ`,
Python byte/str values as `String`, Python sets as `Finset`, and the
`polynames` dict as an association list.  Each definition carries a
comment pointing at the source lines it embeds.
-/

namespace Bluesky

/-! ## Models of Python / numpy primitives -/

/-- Python `int(x)` on a float: truncation toward zero. -/
def pyInt (q : ℚ) : ℤ := if 0 ≤ q then ⌊q⌋ else ⌈q⌉

/-- Python `a % b` on floats (`b > 0` in all uses): `a - b * floor (a / b)`. -/
def pyMod (a b : ℚ) : ℚ := a - b * ⌊a / b⌋

/-- Python `str.upper()` (ASCII model). -/
def pyUpper (s : String) : String := String.mk (s.data.map Char.toUpper)

/-- The composition `txt.replace(":", "").replace(".", "")`:
removing every `:` and `.` character. -/
def stripTimeSeps (s : String) : String :=
  String.mk (s.data.filter (fun c => !(c == ':' || c == '.')))

/-- Python `str.isdigit()` (ASCII model): nonempty and all digits. -/
def pyIsdigit (s : String) : Bool := !s.data.isEmpty && s.data.all Char.isDigit

/-- Python `str.ljust(w)`: pad on the right with spaces up to width `w`;
a string already at least `w` long is returned unchanged (no truncation). -/
def ljust (s : String) (w : Nat) : String :=
  s ++ String.mk (List.replicate (w - s.data.length) ' ')

/-- Python `range(a, b)` (step 1). -/
def pyRange (a b : Nat) : List Nat := List.range' a (b - a)

/-- `np.delete(buf, idxs)`: drop the elements whose position is listed in
`idxs`. -/
def npDelete (buf : List ℚ) (idxs : List Nat) : List ℚ :=
  ((buf.enum).filter (fun p => !(idxs.contains p.1))).map Prod.snd

/-- The index list of a Python/numpy slice `start:stop:step` on an
array: the positions `start, start+step, …` that are `< stop`. -/
def sliceIdx (start stop step : Nat) : List Nat :=
  List.range' start ((stop - start + step - 1) / step) step

/-- Reading a strided slice `xs[start:stop:step]` of an array of length
`xs.length` (the stop bound is clamped to the array length, as in
Python). -/
def npSlice (xs : List ℚ) (start stop step : Nat) : List ℚ :=
  (sliceIdx start (min stop xs.length) step).map (fun i => xs.getD i 0)

/-- Strided-slice assignment `buf[idxs] = vals`, one position at a time
(numpy writes element `vals[m]` at position `idxs[m]`). -/
def assignAt : List ℚ → List Nat → List ℚ → List ℚ
  | buf, i :: is, v :: vs => assignAt (buf.set i v) is vs
  | buf, _, _ => buf

/-! ## nodeData (guiio.py lines 23–135) -/

/-- `ft` conversion constant from `bluesky.tools.aero` (0.3048 m per
foot), used only for the `translvl` default. -/
def ftUnit : ℚ := 3048 / 10000

/-- Mirror of the per-node display state `nodeData` (guiio.py 23–58). -/
structure nodeData where
  polynames : List (String × Nat × Nat)
  polydata : List ℚ
  custwplbl : String
  custwplat : List ℚ
  custwplon : List ℚ
  filteralt : Option (List ℚ)
  traillat0 : List ℚ
  traillon0 : List ℚ
  traillat1 : List ℚ
  traillon1 : List ℚ
  translvl : ℚ
  show_map : Bool
  show_coast : Bool
  show_traf : Bool
  show_pz : Bool
  show_fir : Bool
  show_lbl : Nat
  show_wpt : Nat
  show_apt : Nat
  ssd_all : Bool
  ssd_conflicts : Bool
  ssd_ownship : Finset String
  deriving DecidableEq

/-- `nodeData.clear_scen_data` (guiio.py 27–58); also the state built by
`nodeData.__init__`. -/
def nodeData.clear : nodeData where
  polynames := []
  polydata := []
  custwplbl := ""
  custwplat := []
  custwplon := []
  filteralt := none
  traillat0 := []
  traillon0 := []
  traillat1 := []
  traillon1 := []
  translvl := 4500 * ftUnit
  show_map := true
  show_coast := true
  show_traf := true
  show_pz := false
  show_fir := true
  show_lbl := 2
  show_wpt := 1
  show_apt := 1
  ssd_all := false
  ssd_conflicts := false
  ssd_ownship := ∅

/-- Lookup in the `polynames` dict. -/
def alookup (l : List (String × Nat × Nat)) (k : String) : Option (Nat × Nat) :=
  match l with
  | [] => none
  | (k', v) :: t => if k' = k then some v else alookup t k

/-- `del polynames[name]`. -/
def aerase (l : List (String × Nat × Nat)) (k : String) : List (String × Nat × Nat) :=
  l.filter (fun p => !(p.1 == k))

/-- The fresh segment buffer `newbuf` built by `update_poly_data`
(guiio.py 70–75), with `n = 2 * len(data)`:
`newbuf[0::4] = data[0::2]`, `newbuf[1::4] = data[1::2]`,
`newbuf[2:-2:4] = data[2::2]`, `newbuf[3:-3:4] = data[3::2]`,
`newbuf[-2:] = data[0:2]`  (`np.empty` modelled as a zero-filled
buffer; every position is overwritten). -/
def polyNewbuf (data : List ℚ) : List ℚ :=
  assignAt
    (assignAt
      (assignAt
        (assignAt
          (assignAt (List.replicate (2 * data.length) 0)
            (sliceIdx 0 (2 * data.length) 4) (npSlice data 0 data.length 2))
          (sliceIdx 1 (2 * data.length) 4) (npSlice data 1 data.length 2))
        (sliceIdx 2 (2 * data.length - 2) 4) (npSlice data 2 data.length 2))
      (sliceIdx 3 (2 * data.length - 3) 4) (npSlice data 3 data.length 2))
    (sliceIdx (2 * data.length - 2) (2 * data.length) 1) (npSlice data 0 2 1)

/-- `nodeData.update_poly_data` (guiio.py 60–76).  The stored range for
a name is the pair `(offset, length)` = `(len(polydata), 2 * len(data))`
and removal deletes the positions `range(*polynames[name])`, exactly as
in the source. -/
def nodeData.update_poly_data (nd : nodeData) (name : String)
    (data : Option (List ℚ)) : nodeData :=
  let nd1 :=
    match alookup nd.polynames name with
    | some r =>
        { nd with polydata := npDelete nd.polydata (pyRange r.1 r.2)
                  polynames := aerase nd.polynames name }
    | none => nd
  match data with
  | some d =>
      { nd1 with polynames := nd1.polynames ++ [(name, (nd1.polydata.length, 2 * d.length))]
                 polydata := nd1.polydata ++ polyNewbuf d }
  | none => nd1

/-- `nodeData.defwpt` (guiio.py 78–81). -/
def nodeData.defwpt (nd : nodeData) (name : String) (lat lon : ℚ) : nodeData :=
  { nd with custwplbl := nd.custwplbl ++ ljust name 5
            custwplat := nd.custwplat ++ [lat]
            custwplon := nd.custwplon ++ [lon] }

/-- `nodeData.show_ssd` (guiio.py 122–135). -/
def nodeData.show_ssd (nd : nodeData) (arg : List String) : nodeData :=
  if "ALL" ∈ arg then
    { nd with ssd_all := true, ssd_conflicts := false }
  else if "CONFLICTS" ∈ arg then
    { nd with ssd_all := false, ssd_conflicts := true }
  else if "OFF" ∈ arg then
    { nd with ssd_all := false, ssd_conflicts := false, ssd_ownship := ∅ }
  else
    { nd with ssd_ownship :=
        (nd.ssd_ownship ∪ arg.toFinset) \ (nd.ssd_ownship ∩ arg.toFinset) }

/-! ## Time-text utilities (external `bluesky.tools.misc`) -/

/-- Digit-string value (used by the time parser). -/
def digitsVal (cs : List Char) : Nat := cs.foldl (fun n c => 10 * n + (c.toNat - 48)) 0

/-- Split a character list at every occurrence of `sep`. -/
def splitOnChar (sep : Char) : List Char → List (List Char)
  | [] => [[]]
  | c :: cs =>
      let r := splitOnChar sep cs
      if c = sep then [] :: r
      else
        match r with
        | [] => [[c]]
        | h :: t => (c :: h) :: t

/-- Value of one `:`-separated field, with an optional `.` fraction. -/
def parseSecs (cs : List Char) : ℚ :=
  match splitOnChar '.' cs with
  | [a] => (digitsVal a : ℚ)
  | [a, b] => (digitsVal a : ℚ) + (digitsVal b : ℚ) / ((10 : ℚ) ^ b.length)
  | _ => 0

/-- Modelled from the spec: `txt2tim(text)` parses a `HH:MM:SS.ss`-like
string (colons/dots optional) into seconds-of-day.  The implementation
lives in `bluesky.tools.misc`, which is not part of this source slice:
each `:`-separated field is worth 60 times the previous total. -/
def txt2tim (txt : String) : ℚ :=
  (splitOnChar ':' txt.data).foldl (fun acc p => acc * 60 + parseSecs p) 0

/-- Modelled from the spec: `tim2txt(seconds)` renders seconds-of-day
back to text (external `bluesky.tools.misc`, not in this source slice). -/
def tim2txt (t : ℚ) : String :=
  let secs := pyInt t
  toString (secs / 3600) ++ ":" ++ toString (secs % 3600 / 60) ++ ":" ++ toString (secs % 60)

/-! ## Simulation engine (simulation.py) -/

/-- `onedayinsec = 24 * 3600` (simulation.py line 20). -/
def onedayinsec : ℚ := 24 * 3600

/-- The simulation modes `init, op, hold, end = list(range(4))`
(simulation.py line 27). -/
inductive SimMode where
  | init
  | op
  | hold
  | ended
  deriving DecidableEq

/-- The mutable state of `class Simulation` (simulation.py 32–66).
`syst`/`sysdt` are the wall-clock pacing cursor and budget in
milliseconds, the remaining time fields are seconds. -/
structure Simulation where
  running : Bool
  state : SimMode
  prevstate : Option SimMode
  syst : ℚ
  bencht : ℚ
  benchdt : ℚ
  simt : ℚ
  simdt : ℚ
  dtmult : ℚ
  deltclock : ℚ
  simtclock : ℚ
  sysdt : ℤ
  ffmode : Bool
  ffstop : Option ℚ
  deriving DecidableEq

/-- `settings.simdt` default `0.05` (simulation.py line 23). -/
def simdtDefault : ℚ := 1 / 20

/-- `Simulation.__init__` (simulation.py 32–66). -/
def Simulation.initial : Simulation where
  running := true
  state := SimMode.init
  prevstate := none
  syst := 0
  bencht := 0
  benchdt := -1
  simt := 0
  simdt := simdtDefault
  dtmult := 1
  deltclock := 0
  simtclock := 0
  sysdt := pyInt (simdtDefault / 1 * 1000)
  ffmode := false
  ffstop := none

/-- The per-iteration clock recomputation
`self.simtclock = (self.deltclock + self.simt) % onedayinsec`
(simulation.py line 116). -/
def Simulation.clockUpdate (s : Simulation) : Simulation :=
  { s with simtclock := pyMod (s.deltclock + s.simt) onedayinsec }

/-- `Simulation.start` (simulation.py 153–157); `nowms` stands for
`int(time.time() * 1000.0)`. -/
def Simulation.start (nowms : ℚ) (s : Simulation) : Simulation :=
  { s with syst := if s.ffmode then nowms else s.syst
           ffmode := false
           state := SimMode.op }

/-- `Simulation.pause` (simulation.py 159–160). -/
def Simulation.pause (s : Simulation) : Simulation :=
  { s with state := SimMode.hold }

/-- `Simulation.quit` (simulation.py 176–177). -/
def Simulation.quit (s : Simulation) : Simulation :=
  { s with running := false }

/-- `Simulation.setDt` (simulation.py 179–181), the spec's
`setTimestep(dt)`. -/
def Simulation.setDt (s : Simulation) (dt : ℚ) : Simulation :=
  { s with simdt := |dt|
           sysdt := pyInt (|dt| / s.dtmult * 1000) }

/-- Wall-clock time-of-day as delivered by `time.localtime()` /
`time.gmtime()` (only the fields `setclock` reads). -/
structure ClockTime where
  hour : Nat
  minute : Nat
  second : Nat

/-- `Simulation.setclock` (simulation.py 244–269).  `loct`/`utct` stand
for `time.localtime()`/`time.gmtime()`.  Returns the new state together
with the `(flag, message)` result pair. -/
def Simulation.setclock (loct utct : ClockTime) (s : Simulation) (txt : String) :
    Simulation × Bool × String :=
  if txt = "" then
    (s, true, "Time is now " ++ tim2txt s.simtclock)
  else if pyUpper txt = "RUN" then
    let s' := { s with deltclock := 0, simtclock := s.simt }
    (s', true, "Time is now " ++ tim2txt s'.simtclock)
  else if pyUpper txt = "REAL" then
    let tc : ℚ := (loct.hour : ℚ) * 3600 + (loct.minute : ℚ) * 60 + (loct.second : ℚ)
    let s' := { s with simtclock := tc, deltclock := tc - s.simt }
    (s', true, "Time is now " ++ tim2txt s'.simtclock)
  else if pyUpper txt = "UTC" then
    let tc : ℚ := (utct.hour : ℚ) * 3600 + (utct.minute : ℚ) * 60 + (utct.second : ℚ)
    let s' := { s with simtclock := tc, deltclock := tc - s.simt }
    (s', true, "Time is now " ++ tim2txt s'.simtclock)
  else if pyIsdigit (stripTimeSeps txt) then
    let tc := txt2tim txt
    let s' := { s with simtclock := tc, deltclock := tc - s.simt }
    (s', true, "Time is now " ++ tim2txt s'.simtclock)
  else
    (s, false, "Time syntax error")

/-- The state of the external command stack that the engine reads and
writes.  Modelled from the spec: `get_scendata()`/`set_scendata(times,
commands)` access/replace the pending time-tagged command list and
`stack(text, senderId)` enqueues a single textual command
(`bluesky.stack` is not part of this source slice). -/
structure StackState where
  scentime : List ℚ
  scencmd : List String
  cmdqueue : List (String × String)
  deriving DecidableEq

/-- Modelled from the spec: `stack.reset()` clears the pending
scenario/command data (part of the engine's "full world reset"). -/
def stackReset : StackState where
  scentime := []
  scencmd := []
  cmdqueue := []

/-- Engine state together with the command-stack state it drives. -/
structure EngState where
  sim : Simulation
  stck : StackState
  deriving DecidableEq

/-- The effect of `Simulation.reset` (simulation.py 162–174) on the
engine fields; the calls to `plugin/navdb/traf/datalog/areafilter/scr`
reset external collaborators. -/
def Simulation.reset (s : Simulation) : Simulation :=
  { s with simt := 0
           deltclock := 0
           simtclock := 0
           state := SimMode.init
           ffmode := false }

/-- `Simulation.reset` including its `stack.reset()` call. -/
def engReset (e : EngState) : EngState :=
  { sim := e.sim.reset, stck := stackReset }

/-- Events broadcast to the node manager that the claims mention. -/
inductive MgrEvent where
  | batchEvent (scentime : List ℚ) (scencmd : List String)
  deriving DecidableEq

/-- `Simulation.batch` (simulation.py 211–218).  `openfile` is the
external `stack.openfile` behaviour: it may mutate the stack state
(loading the scenario data) and returns the load result.  The returned
triple is (state after return, events broadcast to the manager in
order, returned result). -/
def Simulation.batch (openfile : String → StackState → Bool × StackState)
    (e : EngState) (filename : String) : EngState × List MgrEvent × Bool :=
  let r := openfile filename e.stck
  let evts := if r.1 then [MgrEvent.batchEvent r.2.scentime r.2.scencmd] else []
  (engReset { sim := e.sim, stck := r.2 }, evts, r.1)

/-- The inbound event kinds dispatched by `Simulation.event`
(simulation.py 220–242): stack-text, batch, quit, and anything else
(forwarded to `bs.scr.event`, whose result is the `Bool` payload). -/
inductive SimEvent where
  | stackText (cmdtext sender_id : String)
  | batchEvt (scentime : List ℚ) (scencmd : List String)
  | quitEvt
  | guiEvt (screenResult : Bool)

/-- `Simulation.event` (simulation.py 220–242).  Returns the state after
the dispatch together with the returned `event_processed` flag, which
is initialised to `False` and set only in the stack-text and batch
branches (and to the screen handler's result in the fallback branch). -/
def Simulation.event (nowms : ℚ) (e : EngState) (ev : SimEvent) : EngState × Bool :=
  match ev with
  | SimEvent.stackText c i =>
      ({ e with stck := { e.stck with cmdqueue := e.stck.cmdqueue ++ [(c, i)] } }, true)
  | SimEvent.batchEvt t c =>
      let e1 := engReset e
      let e2 : EngState := { sim := e1.sim, stck := { e1.stck with scentime := t, scencmd := c } }
      ({ sim := Simulation.start nowms e2.sim, stck := e2.stck }, true)
  | SimEvent.quitEvt =>
      ({ sim := Simulation.quit e.sim, stck := e.stck }, false)
  | SimEvent.guiEvt h => (e, h)

/-! ## GuiClient (guiio.py 137–200) -/

/-- Subscription actions issued against the underlying network client. -/
inductive SubAction where
  | sub (topic nodeid : String)
  | unsub (topic nodeid : String)
  deriving DecidableEq

/-- The client state the claims touch: the active node id (`b''` = the
empty string when none) and the per-node mirror map (guiio.py 140–144). -/
structure GuiClient where
  act : String
  nodedata : List (String × nodeData)
  deriving DecidableEq

/-- `GuiClient.actnode` (guiio.py 178–188).  Returns the state after
the call, the subscribe/unsubscribe actions issued in order, and the
returned node id. -/
def GuiClient.actnode (c : GuiClient) (newact : Option String) :
    GuiClient × List SubAction × String :=
  match newact with
  | none => (c, [], c.act)
  | some n =>
      let tr := (if c.act ≠ "" then [SubAction.unsub "ACDATA" c.act] else [])
        ++ [SubAction.sub "ACDATA" n]
      ({ c with act := n }, tr, n)

/-- Net effect of a subscription-action trace on the set of
(topic, node) subscriptions held at the transport. -/
def applyTrace (subs : Finset (String × String)) : List SubAction → Finset (String × String)
  | [] => subs
  | SubAction.sub t n :: rest => applyTrace (insert (t, n) subs) rest
  | SubAction.unsub t n :: rest => applyTrace (subs.erase (t, n)) rest

/-! ## Helper lemmas -/

theorem pyMod_bounds (a b : ℚ) (hb : 0 < b) : 0 ≤ pyMod a b ∧ pyMod a b < b := by
  have h1 : (⌊a / b⌋ : ℚ) * b ≤ a := (le_div_iff₀ hb).1 (Int.floor_le (a / b))
  have h2 : a < ((⌊a / b⌋ : ℚ) + 1) * b := (div_lt_iff₀ hb).1 (Int.lt_floor_add_one (a / b))
  constructor
  · rw [pyMod]; nlinarith
  · rw [pyMod]; nlinarith

theorem pyInt_bounds (q : ℚ) (hq : 0 ≤ q) :
    (pyInt q : ℚ) ≤ q ∧ q - 1 < (pyInt q : ℚ) := by
  rw [pyInt, if_pos hq]
  exact ⟨Int.floor_le q, Int.sub_one_lt_floor q⟩

theorem length_ljust (s : String) (w : Nat) :
    (ljust s w).length = s.length + (w - s.length) := by
  rw [ljust, String.length_append]
  show s.length + (List.replicate (w - s.data.length) ' ').length = s.length + (w - s.length)
  rw [List.length_replicate]
  rfl

/-! ## C10: quit events clear `running` but return the default `False` -/

/-- C10: for every quit event, `Simulation.event` clears the running
flag via `quit()` but returns `False` (the initialised default of
`event_processed`), whereas stack-text events and batch events both
return `True`. -/
theorem event_quit_returns_false (nowms : ℚ) (e : EngState) :
    (Simulation.event nowms e SimEvent.quitEvt).2 = false
    ∧ (Simulation.event nowms e SimEvent.quitEvt).1.sim.running = false
    ∧ (∀ c i, (Simulation.event nowms e (SimEvent.stackText c i)).2 = true)
    ∧ (∀ t c, (Simulation.event nowms e (SimEvent.batchEvt t c)).2 = true) :=
  ⟨rfl, rfl, fun _ _ => rfl, fun _ _ => rfl⟩

/-! ## C5: `batch` returns the loader result, broadcasts on success,
and always resets -/

/-- C5: `batch(filename)` returns the command-stack loader's result;
when that result is `True` it broadcasts the full time-tagged batch
(the scenario data present after the load) to the node manager, when it
is `False` it skips the broadcast; in both cases a full `reset()` is
performed before returning. -/
theorem batch_broadcast_reset (openfile : String → StackState → Bool × StackState)
    (e : EngState) (filename : String) :
    (Simulation.batch openfile e filename).2.2 = (openfile filename e.stck).1
    ∧ ((openfile filename e.stck).1 = true →
        (Simulation.batch openfile e filename).2.1 =
          [MgrEvent.batchEvent (openfile filename e.stck).2.scentime
            (openfile filename e.stck).2.scencmd])
    ∧ ((openfile filename e.stck).1 = false →
        (Simulation.batch openfile e filename).2.1 = [])
    ∧ (Simulation.batch openfile e filename).1.sim = e.sim.reset
    ∧ (Simulation.batch openfile e filename).1.stck = stackReset := by
  refine ⟨rfl, fun h => ?_, fun h => ?_, rfl, rfl⟩
  · simp [Simulation.batch, h]
  · simp [Simulation.batch, h]

/-- A loader that succeeds, for the C5 witness. -/
def openfileOk : String → StackState → Bool × StackState :=
  fun _ st => (true, { st with scentime := [0], scencmd := ["CRE KL204"] })

/-- A loader that fails, for the C5 witness. -/
def openfileFail : String → StackState → Bool × StackState :=
  fun _ st => (false, st)

/-- Witness for C5 at two concrete loaders. -/
theorem batch_broadcast_reset_witness :
    ((openfileOk "IC" stackReset).1 = true
      ∧ (Simulation.batch openfileOk ⟨Simulation.initial, stackReset⟩ "IC").2.1 =
          [MgrEvent.batchEvent [0] ["CRE KL204"]])
    ∧ ((openfileFail "IC" stackReset).1 = false
      ∧ (Simulation.batch openfileFail ⟨Simulation.initial, stackReset⟩ "IC").2.1 = []) :=
  ⟨⟨rfl, (batch_broadcast_reset openfileOk ⟨Simulation.initial, stackReset⟩ "IC").2.1 rfl⟩,
   ⟨rfl, (batch_broadcast_reset openfileFail ⟨Simulation.initial, stackReset⟩ "IC").2.2.1 rfl⟩⟩

/-! ## C7: `actnode` subscription discipline -/

/-- C7: selecting node `B` while `A` is active unsubscribes topic
`"ACDATA"` from `A` and subscribes it to `B` exactly once each, sets
`B` active and returns `B`; selecting the already-active node leaves
the client state unchanged and returns the same id (its balanced
unsubscribe/subscribe pair leaves the transport subscriptions
unchanged); calling `actnode` with no argument changes nothing and
returns the current active node id. -/
theorem actnode_subscription_discipline :
    (∀ (c : GuiClient) (B : String), c.act ≠ "" →
      (c.actnode (some B)).2.1 =
          [SubAction.unsub "ACDATA" c.act, SubAction.sub "ACDATA" B]
      ∧ (c.actnode (some B)).1.act = B
      ∧ (c.actnode (some B)).2.2 = B)
    ∧ (∀ (c : GuiClient) (subs : Finset (String × String)), c.act ≠ "" →
        ("ACDATA", c.act) ∈ subs →
        (c.actnode (some c.act)).1 = c
        ∧ (c.actnode (some c.act)).2.2 = c.act
        ∧ applyTrace subs ((c.actnode (some c.act)).2.1) = subs)
    ∧ (∀ c : GuiClient, c.actnode none = (c, [], c.act)) := by
  refine ⟨fun c B h => ?_, fun c subs h hmem => ?_, fun c => rfl⟩
  · simp [GuiClient.actnode, h]
  · refine ⟨rfl, rfl, ?_⟩
    have e : (c.actnode (some c.act)).2.1 =
        [SubAction.unsub "ACDATA" c.act, SubAction.sub "ACDATA" c.act] := by
      simp [GuiClient.actnode, h]
    rw [e, applyTrace, applyTrace, applyTrace]
    exact Finset.insert_erase hmem

/-- Witness for C7: node `"B"` selected while `"A"` is active, and
re-selection of `"A"`. -/
theorem actnode_subscription_discipline_witness :
    ((GuiClient.mk "A" []).act ≠ ""
      ∧ ((GuiClient.mk "A" []).actnode (some "B")).2.1 =
          [SubAction.unsub "ACDATA" (GuiClient.mk "A" []).act, SubAction.sub "ACDATA" "B"]
      ∧ ((GuiClient.mk "A" []).actnode (some "B")).1.act = "B"
      ∧ ((GuiClient.mk "A" []).actnode (some "B")).2.2 = "B")
    ∧ (("ACDATA", (GuiClient.mk "A" []).act) ∈ ({("ACDATA", "A")} : Finset (String × String))
      ∧ ((GuiClient.mk "A" []).actnode (some (GuiClient.mk "A" []).act)).1 = GuiClient.mk "A" []
      ∧ applyTrace {("ACDATA", "A")}
          (((GuiClient.mk "A" []).actnode (some (GuiClient.mk "A" []).act)).2.1) =
            {("ACDATA", "A")}) :=
  ⟨⟨by decide,
    (actnode_subscription_discipline.1 (GuiClient.mk "A" []) "B" (by decide)).1,
    (actnode_subscription_discipline.1 (GuiClient.mk "A" []) "B" (by decide)).2.1,
    (actnode_subscription_discipline.1 (GuiClient.mk "A" []) "B" (by decide)).2.2⟩,
   ⟨by decide,
    (actnode_subscription_discipline.2.1 (GuiClient.mk "A" []) {("ACDATA", "A")}
        (by decide) (by decide)).1,
    (actnode_subscription_discipline.2.1 (GuiClient.mk "A" []) {("ACDATA", "A")}
        (by decide) (by decide)).2.2⟩⟩

/-! ## C8: `show_ssd` toggles by symmetric difference -/

/-- C8: for argument lists containing none of `"ALL"`, `"CONFLICTS"`,
`"OFF"`, `show_ssd(args)` replaces `ssd_ownship` with its symmetric
difference with the set of ids in `args` (present ids are removed,
absent ids are added) and leaves `ssd_all` and `ssd_conflicts`
unchanged. -/
theorem show_ssd_symmdiff (nd : nodeData) (arg : List String)
    (h1 : "ALL" ∉ arg) (h2 : "CONFLICTS" ∉ arg) (h3 : "OFF" ∉ arg) :
    (nd.show_ssd arg).ssd_ownship = symmDiff nd.ssd_ownship arg.toFinset
    ∧ (∀ x, x ∈ (nd.show_ssd arg).ssd_ownship ↔
        ((x ∈ nd.ssd_ownship ∧ x ∉ arg) ∨ (x ∉ nd.ssd_ownship ∧ x ∈ arg)))
    ∧ (nd.show_ssd arg).ssd_all = nd.ssd_all
    ∧ (nd.show_ssd arg).ssd_conflicts = nd.ssd_conflicts := by
  have e : nd.show_ssd arg = { nd with ssd_ownship :=
      (nd.ssd_ownship ∪ arg.toFinset) \ (nd.ssd_ownship ∩ arg.toFinset) } := by
    rw [nodeData.show_ssd, if_neg h1, if_neg h2, if_neg h3]
  rw [e]
  refine ⟨?_, fun x => ?_, rfl, rfl⟩
  · rw [symmDiff_eq_sup_sdiff_inf]
    simp [Finset.sup_eq_union, Finset.inf_eq_inter]
  · simp only [Finset.mem_sdiff, Finset.mem_union, Finset.mem_inter, List.mem_toFinset]
    tauto

/-- The node state with `ssd_ownship = {"AB1"}` used by the C8 witness. -/
def ssdWitState : nodeData := { nodeData.clear with ssd_ownship := {"AB1"} }

/-- Witness for C8: from `ssd_ownship = {"AB1"}`,
`show_ssd(["AB1","CD2"])` yields `{"CD2"}`. -/
theorem show_ssd_symmdiff_witness :
    ("ALL" ∉ ["AB1", "CD2"] ∧ "CONFLICTS" ∉ ["AB1", "CD2"] ∧ "OFF" ∉ ["AB1", "CD2"])
    ∧ (ssdWitState.show_ssd ["AB1", "CD2"]).ssd_ownship =
        symmDiff ssdWitState.ssd_ownship (["AB1", "CD2"] : List String).toFinset
    ∧ (ssdWitState.show_ssd ["AB1", "CD2"]).ssd_ownship = {"CD2"} :=
  ⟨⟨by decide, by decide, by decide⟩,
   (show_ssd_symmdiff ssdWitState ["AB1", "CD2"]
      (by decide) (by decide) (by decide)).1,
   by decide⟩

/-! ## C9: `defwpt` field widths -/

/-- Counterexample to C9: `name.ljust(5)` does not truncate, so a
6-character name appends 6 characters and breaks the
`len(custwplbl) = 5 * len(custwplat)` invariant. -/
theorem defwpt_long_name_counterexample :
    (nodeData.clear.defwpt "ABCDEF" 1 2).custwplbl.length = 6
    ∧ (nodeData.clear.defwpt "ABCDEF" 1 2).custwplat.length = 1
    ∧ (nodeData.clear.defwpt "ABCDEF" 1 2).custwplbl.length ≠
        5 * (nodeData.clear.defwpt "ABCDEF" 1 2).custwplat.length := by
  refine ⟨by decide, by decide, by decide⟩

/-- C9 (amended): for names of at most 5 characters, `defwpt` appends
exactly one 5-character field to the label string and one element to
each parallel coordinate array, and any sequence of such calls starting
from a state satisfying the width invariant preserves
`len(custwplbl) = 5 * len(custwplat)` and
`len(custwplat) = len(custwplon)`. -/
theorem defwpt_field_widths :
    (∀ (nd : nodeData) (name : String) (lat lon : ℚ), name.length ≤ 5 →
      ((nd.defwpt name lat lon).custwplbl.length = nd.custwplbl.length + 5
       ∧ (nd.defwpt name lat lon).custwplat.length = nd.custwplat.length + 1
       ∧ (nd.defwpt name lat lon).custwplon.length = nd.custwplon.length + 1))
    ∧ (∀ (calls : List (String × ℚ × ℚ)), (∀ p ∈ calls, p.1.length ≤ 5) →
        ∀ nd : nodeData, nd.custwplbl.length = 5 * nd.custwplat.length →
        nd.custwplat.length = nd.custwplon.length →
        ((calls.foldl (fun d p => d.defwpt p.1 p.2.1 p.2.2) nd).custwplbl.length
            = 5 * (calls.foldl (fun d p => d.defwpt p.1 p.2.1 p.2.2) nd).custwplat.length
         ∧ (calls.foldl (fun d p => d.defwpt p.1 p.2.1 p.2.2) nd).custwplat.length
            = (calls.foldl (fun d p => d.defwpt p.1 p.2.1 p.2.2) nd).custwplon.length)) := by
  have single : ∀ (nd : nodeData) (name : String) (lat lon : ℚ), name.length ≤ 5 →
      ((nd.defwpt name lat lon).custwplbl.length = nd.custwplbl.length + 5
       ∧ (nd.defwpt name lat lon).custwplat.length = nd.custwplat.length + 1
       ∧ (nd.defwpt name lat lon).custwplon.length = nd.custwplon.length + 1) := by
    intro nd name lat lon h
    refine ⟨?_, ?_, ?_⟩
    · show (nd.custwplbl ++ ljust name 5).length = nd.custwplbl.length + 5
      rw [String.length_append, length_ljust]
      omega
    · show (nd.custwplat ++ [lat]).length = nd.custwplat.length + 1
      rw [List.length_append, List.length_singleton]
    · show (nd.custwplon ++ [lon]).length = nd.custwplon.length + 1
      rw [List.length_append, List.length_singleton]
  refine ⟨single, fun calls => ?_⟩
  induction calls with
  | nil => exact fun _ nd h1 h2 => ⟨h1, h2⟩
  | cons p ps ih =>
      intro hall nd h1 h2
      have hp := single nd p.1 p.2.1 p.2.2 (hall p (List.mem_cons_self p ps))
      have hrest := ih (fun q hq => hall q (List.mem_cons_of_mem p hq)) (nd.defwpt p.1 p.2.1 p.2.2)
        (by omega) (by omega)
      simpa [List.foldl_cons] using hrest

/-- Witness for C9 (amended): a 4-character name on the empty state,
and a two-call sequence. -/
theorem defwpt_field_widths_witness :
    (("EHAM" : String).length ≤ 5
     ∧ ((nodeData.clear.defwpt "EHAM" 52 4).custwplbl.length =
          nodeData.clear.custwplbl.length + 5
        ∧ (nodeData.clear.defwpt "EHAM" 52 4).custwplat.length =
            nodeData.clear.custwplat.length + 1
        ∧ (nodeData.clear.defwpt "EHAM" 52 4).custwplon.length =
            nodeData.clear.custwplon.length + 1))
    ∧ ((∀ p ∈ ([("EHAM", (52 : ℚ), (4 : ℚ)), ("WPT01", 10, 20)] : List (String × ℚ × ℚ)),
          p.1.length ≤ 5)
       ∧ nodeData.clear.custwplbl.length = 5 * nodeData.clear.custwplat.length
       ∧ (([("EHAM", (52 : ℚ), (4 : ℚ)), ("WPT01", 10, 20)] :
            List (String × ℚ × ℚ)).foldl (fun d p => d.defwpt p.1 p.2.1 p.2.2)
              nodeData.clear).custwplbl.length
          = 5 * (([("EHAM", (52 : ℚ), (4 : ℚ)), ("WPT01", 10, 20)] :
            List (String × ℚ × ℚ)).foldl (fun d p => d.defwpt p.1 p.2.1 p.2.2)
              nodeData.clear).custwplat.length) :=
  ⟨⟨by decide, defwpt_field_widths.1 nodeData.clear "EHAM" 52 4 (by decide)⟩,
   ⟨by decide, by decide,
    (defwpt_field_widths.2 [("EHAM", (52 : ℚ), (4 : ℚ)), ("WPT01", 10, 20)]
      (by decide) nodeData.clear (by decide) (by decide)).1⟩⟩

/-! ## C1: polygon removal uses a stale index range -/

/-- State after storing polygon `"A"` with 3 points (12 floats). -/
def polyA : nodeData := nodeData.clear.update_poly_data "A" (some [1, 2, 3, 4, 5, 6])

/-- State after additionally storing polygon `"B"` with 3 points. -/
def polyAB : nodeData := polyA.update_poly_data "B" (some [7, 8, 9, 10, 11, 12])

/-- State after then deleting polygon `"B"`. -/
def polyABdelB : nodeData := polyAB.update_poly_data "B" none

/-- C1 fails on the code: `polynames` stores `(offset, length)` but
removal deletes `range(offset, length)` instead of
`range(offset, offset+length)`.  With `"B"` stored at `(12, 12)`,
deleting `"B"` removes `range(12, 12) = []`: the mapping is dropped but
all 24 floats remain, instead of the 12 floats of `"A"` that the claim
requires. -/
theorem update_poly_data_stale_slice :
    alookup polyAB.polynames "B" = some (12, 12)
    ∧ alookup polyABdelB.polynames "B" = none
    ∧ polyABdelB.polydata = polyAB.polydata
    ∧ polyABdelB.polydata.length = 24
    ∧ polyA.polydata.length = 12
    ∧ polyABdelB.polydata ≠ polyA.polydata := by
  refine ⟨by decide, by decide, by decide, by decide, by decide, by decide⟩

/-! ## C6: `setDt` truncates the derived system timestep -/

/-- Counterexample to C6: with `dtmult = 3`, `setDt(-0.1)` stores
`sysdt = int(0.1/3*1000) = 33`, which differs from
`simdt / dtmult * 1000 = 100/3`. -/
theorem setDt_truncation_counterexample :
    (Simulation.setDt { Simulation.initial with dtmult := 3 } (-1 / 10)).simdt = 1 / 10
    ∧ ((Simulation.setDt { Simulation.initial with dtmult := 3 } (-1 / 10)).sysdt : ℚ) ≠
        (Simulation.setDt { Simulation.initial with dtmult := 3 } (-1 / 10)).simdt
          / ({ Simulation.initial with dtmult := 3 } : Simulation).dtmult * 1000 := by
  constructor
  · show |(-1 / 10 : ℚ)| = 1 / 10
    norm_num
  · show (pyInt (|(-1 / 10 : ℚ)| / 3 * 1000) : ℚ) ≠ |(-1 / 10 : ℚ)| / 3 * 1000
    rw [show |(-1 / 10 : ℚ)| = 1 / 10 from by norm_num]
    norm_num [pyInt]

/-- C6 (amended): `setDt(dt)` sets `simdt = |dt|` and `sysdt` to the
integer truncation of `simdt / dtmult * 1000`, which therefore lies
within 1 below the exact value `simdt / dtmult * 1000`. -/
theorem setDt_amended (s : Simulation) (dt : ℚ) (h : 0 < s.dtmult) :
    (Simulation.setDt s dt).simdt = |dt|
    ∧ (Simulation.setDt s dt).sysdt = pyInt (|dt| / s.dtmult * 1000)
    ∧ ((Simulation.setDt s dt).sysdt : ℚ) ≤ (Simulation.setDt s dt).simdt / s.dtmult * 1000
    ∧ (Simulation.setDt s dt).simdt / s.dtmult * 1000 - 1 < ((Simulation.setDt s dt).sysdt : ℚ) := by
  have hq : (0 : ℚ) ≤ |dt| / s.dtmult * 1000 := by positivity
  have hb := pyInt_bounds (|dt| / s.dtmult * 1000) hq
  exact ⟨rfl, rfl, hb.1, hb.2⟩

/-- Witness for C6 (amended): `setDt(-0.1)` on the initial state
(`dtmult = 1`) gives `simdt = 0.1` and `sysdt = 100`. -/
theorem setDt_amended_witness :
    (0 : ℚ) < Simulation.initial.dtmult
    ∧ (Simulation.setDt Simulation.initial (-1 / 10)).simdt = |(-1 / 10 : ℚ)|
    ∧ (Simulation.setDt Simulation.initial (-1 / 10)).sysdt =
        pyInt (|(-1 / 10 : ℚ)| / Simulation.initial.dtmult * 1000)
    ∧ (Simulation.setDt Simulation.initial (-1 / 10)).sysdt = 100 := by
  have h : (0 : ℚ) < Simulation.initial.dtmult := by norm_num [Simulation.initial]
  refine ⟨h, (setDt_amended Simulation.initial (-1 / 10) h).1,
    (setDt_amended Simulation.initial (-1 / 10) h).2.1, ?_⟩
  show pyInt (|(-1 / 10 : ℚ)| / 1 * 1000) = 100
  rw [show |(-1 / 10 : ℚ)| = 1 / 10 from by norm_num]
  norm_num [pyInt]

/-! ## C3: `"25:99"` is accepted by the digit-string branch -/

/-- Counterexample to C3: `"25:99".replace(":","").replace(".","")` is
the digit string `"2599"`, so `setclock("25:99")` takes the
digit-string branch: it returns success and sets
`simtclock = txt2tim("25:99") = 1599`, mutating the clock state. -/
theorem setclock_2599_counterexample :
    (Simulation.setclock ⟨0, 0, 0⟩ ⟨0, 0, 0⟩ Simulation.initial "25:99").2.1 = true
    ∧ (Simulation.setclock ⟨0, 0, 0⟩ ⟨0, 0, 0⟩ Simulation.initial "25:99").1.simtclock = 1599
    ∧ (Simulation.setclock ⟨0, 0, 0⟩ ⟨0, 0, 0⟩ Simulation.initial "25:99").1.simtclock ≠
        Simulation.initial.simtclock := by
  have htim : txt2tim "25:99" = 1599 := by
    have h2 : parseSecs ['2', '5'] = 25 := by
      rw [parseSecs, show splitOnChar '.' ['2', '5'] = [['2', '5']] from by decide]
      show ((digitsVal ['2', '5'] : ℕ) : ℚ) = 25
      rw [show digitsVal ['2', '5'] = 25 from by decide]
      norm_num
    have h3 : parseSecs ['9', '9'] = 99 := by
      rw [parseSecs, show splitOnChar '.' ['9', '9'] = [['9', '9']] from by decide]
      show ((digitsVal ['9', '9'] : ℕ) : ℚ) = 99
      rw [show digitsVal ['9', '9'] = 99 from by decide]
      norm_num
    rw [txt2tim, show splitOnChar ':' "25:99".data = [['2', '5'], ['9', '9']] from by decide]
    simp only [List.foldl]
    rw [h2, h3]
    norm_num
  have hclock : (Simulation.setclock ⟨0, 0, 0⟩ ⟨0, 0, 0⟩ Simulation.initial "25:99").1.simtclock
      = txt2tim "25:99" := rfl
  refine ⟨by decide, ?_, ?_⟩
  · rw [hclock, htim]
  · rw [hclock, htim]
    show (1599 : ℚ) ≠ Simulation.initial.simtclock
    norm_num [Simulation.initial]

/-- C3 (amended): every input that is non-empty, not
`RUN`/`REAL`/`UTC` (case-insensitive), and whose text with `:` and `.`
removed is not a nonempty digit string fails with "Time syntax error"
and leaves the whole state (in particular `simtclock`/`deltclock`)
unchanged; `"25:99"` is not such an input — it passes the digit check
(see the counterexample). -/
theorem setclock_syntax_error_amended (loct utct : ClockTime) (s : Simulation) (txt : String)
    (h0 : txt ≠ "") (h1 : pyUpper txt ≠ "RUN") (h2 : pyUpper txt ≠ "REAL")
    (h3 : pyUpper txt ≠ "UTC") (h4 : pyIsdigit (stripTimeSeps txt) = false) :
    Simulation.setclock loct utct s txt = (s, false, "Time syntax error") := by
  rw [Simulation.setclock, if_neg h0, if_neg h1, if_neg h2, if_neg h3,
    if_neg (by simp [h4])]

/-- Witness for C3 (amended) at the malformed input `"XYZ"`. -/
theorem setclock_syntax_error_amended_witness :
    (("XYZ" : String) ≠ "" ∧ pyUpper "XYZ" ≠ "RUN" ∧ pyUpper "XYZ" ≠ "REAL"
      ∧ pyUpper "XYZ" ≠ "UTC" ∧ pyIsdigit (stripTimeSeps "XYZ") = false)
    ∧ Simulation.setclock ⟨0, 0, 0⟩ ⟨0, 0, 0⟩ Simulation.initial "XYZ" =
        (Simulation.initial, false, "Time syntax error") :=
  ⟨⟨by decide, by decide, by decide, by decide, by decide⟩,
   setclock_syntax_error_amended ⟨0, 0, 0⟩ ⟨0, 0, 0⟩ Simulation.initial "XYZ"
     (by decide) (by decide) (by decide) (by decide) (by decide)⟩

/-! ## C4: the `[0, 86400)` clock range -/

/-- Counterexample to C4: the `RUN` branch of `setclock` copies `simt`
into `simtclock` without wrapping, so with `simt = 100000` the
resulting `simtclock` is `100000 ∉ [0, 86400)`. -/
theorem setclock_run_out_of_range :
    (Simulation.setclock ⟨0, 0, 0⟩ ⟨0, 0, 0⟩
        { Simulation.initial with simt := 100000 } "RUN").1.simtclock = 100000
    ∧ ¬ ((Simulation.setclock ⟨0, 0, 0⟩ ⟨0, 0, 0⟩
        { Simulation.initial with simt := 100000 } "RUN").1.simtclock < onedayinsec) := by
  have e : (Simulation.setclock ⟨0, 0, 0⟩ ⟨0, 0, 0⟩
      { Simulation.initial with simt := 100000 } "RUN").1.simtclock = 100000 := rfl
  refine ⟨e, ?_⟩
  rw [e, onedayinsec]
  norm_num

/-- C4 (amended): the per-iteration recomputation
`simtclock = (deltclock + simt) % 86400` always lands in `[0, 86400)`,
and so do the `REAL` and `UTC` branches of `setclock` for a valid
wall-clock time-of-day; the `RUN` and digit-string branches are not
wrapped and can leave the range (see the counterexample). -/
theorem simtclock_range_amended :
    (∀ s : Simulation, 0 ≤ (Simulation.clockUpdate s).simtclock
        ∧ (Simulation.clockUpdate s).simtclock < onedayinsec)
    ∧ (∀ (loct utct : ClockTime) (s : Simulation),
        loct.hour ≤ 23 → loct.minute ≤ 59 → loct.second ≤ 59 →
        0 ≤ (Simulation.setclock loct utct s "REAL").1.simtclock
        ∧ (Simulation.setclock loct utct s "REAL").1.simtclock < onedayinsec)
    ∧ (∀ (loct utct : ClockTime) (s : Simulation),
        utct.hour ≤ 23 → utct.minute ≤ 59 → utct.second ≤ 59 →
        0 ≤ (Simulation.setclock loct utct s "UTC").1.simtclock
        ∧ (Simulation.setclock loct utct s "UTC").1.simtclock < onedayinsec) := by
  have hday : (0 : ℚ) < onedayinsec := by rw [onedayinsec]; norm_num
  refine ⟨fun s => pyMod_bounds (s.deltclock + s.simt) onedayinsec hday, ?_, ?_⟩
  · intro loct utct s h1 h2 h3
    have e : (Simulation.setclock loct utct s "REAL").1.simtclock =
        (loct.hour : ℚ) * 3600 + (loct.minute : ℚ) * 60 + (loct.second : ℚ) := rfl
    have c1 : (loct.hour : ℚ) ≤ 23 := by exact_mod_cast h1
    have c2 : (loct.minute : ℚ) ≤ 59 := by exact_mod_cast h2
    have c3 : (loct.second : ℚ) ≤ 59 := by exact_mod_cast h3
    have p1 : (0 : ℚ) ≤ (loct.hour : ℚ) := Nat.cast_nonneg _
    have p2 : (0 : ℚ) ≤ (loct.minute : ℚ) := Nat.cast_nonneg _
    have p3 : (0 : ℚ) ≤ (loct.second : ℚ) := Nat.cast_nonneg _
    rw [e, onedayinsec]
    constructor <;> nlinarith
  · intro loct utct s h1 h2 h3
    have e : (Simulation.setclock loct utct s "UTC").1.simtclock =
        (utct.hour : ℚ) * 3600 + (utct.minute : ℚ) * 60 + (utct.second : ℚ) := rfl
    have c1 : (utct.hour : ℚ) ≤ 23 := by exact_mod_cast h1
    have c2 : (utct.minute : ℚ) ≤ 59 := by exact_mod_cast h2
    have c3 : (utct.second : ℚ) ≤ 59 := by exact_mod_cast h3
    have p1 : (0 : ℚ) ≤ (utct.hour : ℚ) := Nat.cast_nonneg _
    have p2 : (0 : ℚ) ≤ (utct.minute : ℚ) := Nat.cast_nonneg _
    have p3 : (0 : ℚ) ≤ (utct.second : ℚ) := Nat.cast_nonneg _
    rw [e, onedayinsec]
    constructor <;> nlinarith

/-- Witness for C4 (amended) at the wall-clock time 12:30:45. -/
theorem simtclock_range_amended_witness :
    ((⟨12, 30, 45⟩ : ClockTime).hour ≤ 23
     ∧ (⟨12, 30, 45⟩ : ClockTime).minute ≤ 59
     ∧ (⟨12, 30, 45⟩ : ClockTime).second ≤ 59)
    ∧ (0 ≤ (Simulation.setclock ⟨12, 30, 45⟩ ⟨0, 0, 0⟩ Simulation.initial "REAL").1.simtclock
       ∧ (Simulation.setclock ⟨12, 30, 45⟩ ⟨0, 0, 0⟩
            Simulation.initial "REAL").1.simtclock < onedayinsec) :=
  ⟨⟨by decide, by decide, by decide⟩,
   simtclock_range_amended.2.1 ⟨12, 30, 45⟩ ⟨0, 0, 0⟩ Simulation.initial
     (by decide) (by decide) (by decide)⟩

/-! ## C2: the polygon segment buffer -/

theorem length_assignAt (is : List Nat) (vs buf : List ℚ) :
    (assignAt buf is vs).length = buf.length := by
  induction is generalizing buf vs with
  | nil => simp [assignAt]
  | cons i is ih =>
      cases vs with
      | nil => simp [assignAt]
      | cons v vs => rw [assignAt, ih, List.length_set]

theorem assignAt_getElem_not_mem (is : List Nat) (vs buf : List ℚ) (j : Nat)
    (h : j ∉ is) : (assignAt buf is vs)[j]? = buf[j]? := by
  induction is generalizing buf vs with
  | nil => simp [assignAt]
  | cons i is ih =>
      cases vs with
      | nil => simp [assignAt]
      | cons v vs =>
          rw [assignAt, ih _ _ (fun hm => h (List.mem_cons_of_mem _ hm))]
          exact List.getElem?_set_ne
            (fun he => h (by subst he; exact List.mem_cons_self i is))

theorem assignAt_getElem_range (step : Nat) (hstep : 0 < step) (cnt : Nat) :
    ∀ (a m : Nat) (buf vs : List ℚ), m < cnt → m < vs.length →
      a + step * m < buf.length →
      (assignAt buf (List.range' a cnt step) vs)[a + step * m]? = some (vs.getD m 0) := by
  induction cnt with
  | zero => intro a m buf vs hm _ _; exact absurd hm (Nat.not_lt_zero m)
  | succ cnt ih =>
      intro a m buf vs hm hv hb
      cases vs with
      | nil => exact absurd hv (Nat.not_lt_zero m)
      | cons v vs =>
          rw [List.range'_succ, assignAt]
          cases m with
          | zero =>
              have hnot : a + step * 0 ∉ List.range' (a + step) cnt step := by
                intro hmem
                rcases List.mem_range'.1 hmem with ⟨i, _, he⟩
                omega
              rw [assignAt_getElem_not_mem _ _ _ _ hnot]
              have ha : a + step * 0 = a := by omega
              rw [ha, List.getElem?_set_self (by omega : a < buf.length)]
              rfl
          | succ m =>
              have he : a + step * (m + 1) = (a + step) + step * m := by ring
              rw [he]
              rw [ih (a + step) m (buf.set a v) vs (by omega) (by simpa using hv)
                (by rw [List.length_set]; omega)]
              rfl

theorem length_npSlice (xs : List ℚ) (start stop step : Nat) :
    (npSlice xs start stop step).length =
      (min stop xs.length - start + step - 1) / step := by
  rw [npSlice, List.length_map, sliceIdx, List.length_range']

theorem npSlice_getD (xs : List ℚ) (start stop step m : Nat)
    (h : m < (npSlice xs start stop step).length) :
    (npSlice xs start stop step).getD m 0 = xs.getD (start + step * m) 0 := by
  rw [npSlice] at h ⊢
  rw [List.length_map, sliceIdx, List.length_range'] at h
  rw [List.getD_eq_getElem?_getD, List.getElem?_map, sliceIdx,
    List.getElem?_range' _ _ h]
  rfl

theorem getD_eq_some_getElem? (xs : List ℚ) (i : Nat) (h : i < xs.length) :
    some (xs.getD i 0) = xs[i]? := by
  rw [List.getD_eq_getElem?_getD, List.getElem?_eq_getElem h]
  rfl

/-- C2: `update_poly_data(name, points)` (fresh `name`) appends a buffer
of exactly `4·P` floats in which positions `4k, 4k+1` hold point `k`'s
`(lat, lon)` and positions `4k+2, 4k+3` hold point `(k+1) mod P`'s
`(lat, lon)`, the last segment closing the loop back to point 0. -/
theorem update_poly_data_segment_buffer (nd : nodeData) (name : String)
    (data : List ℚ) (P : Nat)
    (hfresh : alookup nd.polynames name = none) (hlen : data.length = 2 * P) :
    (nd.update_poly_data name (some data)).polydata = nd.polydata ++ polyNewbuf data
    ∧ (polyNewbuf data).length = 4 * P
    ∧ ∀ k, k < P →
        ((polyNewbuf data)[4 * k]? = data[2 * k]?
         ∧ (polyNewbuf data)[4 * k + 1]? = data[2 * k + 1]?
         ∧ (polyNewbuf data)[4 * k + 2]? = data[2 * ((k + 1) % P)]?
         ∧ (polyNewbuf data)[4 * k + 3]? = data[2 * ((k + 1) % P) + 1]?) := by
  refine ⟨by simp [nodeData.update_poly_data, hfresh], ?_, ?_⟩
  · rw [polyNewbuf, length_assignAt, length_assignAt, length_assignAt, length_assignAt,
      length_assignAt, List.length_replicate]
    omega
  intro k hk
  refine ⟨?_, ?_, ?_, ?_⟩
  · -- position 4k: written by stage 1, untouched afterwards
    rw [polyNewbuf]
    rw [assignAt_getElem_not_mem _ _ _ _ (by
      rw [sliceIdx]; intro hmem
      rcases List.mem_range'.1 hmem with ⟨i, _, he⟩; omega)]
    rw [assignAt_getElem_not_mem _ _ _ _ (by
      rw [sliceIdx]; intro hmem
      rcases List.mem_range'.1 hmem with ⟨i, _, he⟩; omega)]
    rw [assignAt_getElem_not_mem _ _ _ _ (by
      rw [sliceIdx]; intro hmem
      rcases List.mem_range'.1 hmem with ⟨i, _, he⟩; omega)]
    rw [assignAt_getElem_not_mem _ _ _ _ (by
      rw [sliceIdx]; intro hmem
      rcases List.mem_range'.1 hmem with ⟨i, _, he⟩; omega)]
    rw [show (sliceIdx 0 (2 * data.length) 4) = List.range' 0 P 4 from by
      rw [sliceIdx]; congr 1; omega]
    rw [show 4 * k = 0 + 4 * k from by omega]
    rw [assignAt_getElem_range 4 (by norm_num) P 0 k _ _ hk
      (by rw [length_npSlice]; omega) (by rw [List.length_replicate]; omega)]
    rw [npSlice_getD data 0 data.length 2 k (by rw [length_npSlice]; omega)]
    rw [show 0 + 2 * k = 2 * k from by omega]
    exact getD_eq_some_getElem? data (2 * k) (by omega)
  · -- position 4k+1: written by stage 2, untouched afterwards
    rw [polyNewbuf]
    rw [assignAt_getElem_not_mem _ _ _ _ (by
      rw [sliceIdx]; intro hmem
      rcases List.mem_range'.1 hmem with ⟨i, _, he⟩; omega)]
    rw [assignAt_getElem_not_mem _ _ _ _ (by
      rw [sliceIdx]; intro hmem
      rcases List.mem_range'.1 hmem with ⟨i, _, he⟩; omega)]
    rw [assignAt_getElem_not_mem _ _ _ _ (by
      rw [sliceIdx]; intro hmem
      rcases List.mem_range'.1 hmem with ⟨i, _, he⟩; omega)]
    rw [show (sliceIdx 1 (2 * data.length) 4) = List.range' 1 P 4 from by
      rw [sliceIdx]; congr 1; omega]
    rw [show 4 * k + 1 = 1 + 4 * k from by omega]
    rw [assignAt_getElem_range 4 (by norm_num) P 1 k _ _ hk
      (by rw [length_npSlice]; omega)
      (by rw [length_assignAt, List.length_replicate]; omega)]
    rw [npSlice_getD data 1 data.length 2 k (by rw [length_npSlice]; omega)]
    rw [show 1 + 2 * k = 2 * k + 1 from by omega]
    exact getD_eq_some_getElem? data (2 * k + 1) (by omega)
  · -- position 4k+2: stage 3 for k < P-1, the closing write for k = P-1
    by_cases hkP : k + 1 < P
    · rw [polyNewbuf]
      rw [assignAt_getElem_not_mem _ _ _ _ (by
        rw [sliceIdx]; intro hmem
        rcases List.mem_range'.1 hmem with ⟨i, _, he⟩; omega)]
      rw [assignAt_getElem_not_mem _ _ _ _ (by
        rw [sliceIdx]; intro hmem
        rcases List.mem_range'.1 hmem with ⟨i, _, he⟩; omega)]
      rw [show (sliceIdx 2 (2 * data.length - 2) 4) = List.range' 2 (P - 1) 4 from by
        rw [sliceIdx]; congr 1; omega]
      rw [show 4 * k + 2 = 2 + 4 * k from by omega]
      rw [assignAt_getElem_range 4 (by norm_num) (P - 1) 2 k _ _ (by omega)
        (by rw [length_npSlice]; omega)
        (by rw [length_assignAt, length_assignAt, List.length_replicate]; omega)]
      rw [npSlice_getD data 2 data.length 2 k (by rw [length_npSlice]; omega)]
      rw [show 2 + 2 * k = 2 * ((k + 1) % P) from by
        rw [Nat.mod_eq_of_lt hkP]; omega]
      exact getD_eq_some_getElem? data (2 * ((k + 1) % P)) (by
        rw [Nat.mod_eq_of_lt hkP]; omega)
    · -- k = P - 1: the final `newbuf[-2:] = data[0:2]` write
      have hkeq : k + 1 = P := by omega
      rw [polyNewbuf]
      rw [show (sliceIdx (2 * data.length - 2) (2 * data.length) 1) =
          List.range' (2 * data.length - 2) 2 1 from by
        rw [sliceIdx]; congr 1; omega]
      rw [show 4 * k + 2 = (2 * data.length - 2) + 1 * 0 from by omega]
      rw [assignAt_getElem_range 1 (by norm_num) 2 (2 * data.length - 2) 0 _ _
        (by norm_num) (by rw [length_npSlice]; omega)
        (by rw [length_assignAt, length_assignAt, length_assignAt, length_assignAt,
              List.length_replicate]; omega)]
      rw [npSlice_getD data 0 2 1 0 (by rw [length_npSlice]; omega)]
      rw [show 0 + 1 * 0 = 2 * ((k + 1) % P) from by
        rw [hkeq, Nat.mod_self]]
      exact getD_eq_some_getElem? data (2 * ((k + 1) % P)) (by
        rw [hkeq, Nat.mod_self]; omega)
  · -- position 4k+3: stage 4 for k < P-1, the closing write for k = P-1
    by_cases hkP : k + 1 < P
    · rw [polyNewbuf]
      rw [assignAt_getElem_not_mem _ _ _ _ (by
        rw [sliceIdx]; intro hmem
        rcases List.mem_range'.1 hmem with ⟨i, hi, he⟩
        omega)]
      rw [show (sliceIdx 3 (2 * data.length - 3) 4) = List.range' 3 (P - 1) 4 from by
        rw [sliceIdx]; congr 1; omega]
      rw [show 4 * k + 3 = 3 + 4 * k from by omega]
      rw [assignAt_getElem_range 4 (by norm_num) (P - 1) 3 k _ _ (by omega)
        (by rw [length_npSlice]; omega)
        (by rw [length_assignAt, length_assignAt, length_assignAt,
              List.length_replicate]; omega)]
      rw [npSlice_getD data 3 data.length 2 k (by rw [length_npSlice]; omega)]
      rw [show 3 + 2 * k = 2 * ((k + 1) % P) + 1 from by
        rw [Nat.mod_eq_of_lt hkP]; omega]
      exact getD_eq_some_getElem? data (2 * ((k + 1) % P) + 1) (by
        rw [Nat.mod_eq_of_lt hkP]; omega)
    · have hkeq : k + 1 = P := by omega
      rw [polyNewbuf]
      rw [show (sliceIdx (2 * data.length - 2) (2 * data.length) 1) =
          List.range' (2 * data.length - 2) 2 1 from by
        rw [sliceIdx]; congr 1; omega]
      rw [show 4 * k + 3 = (2 * data.length - 2) + 1 * 1 from by omega]
      rw [assignAt_getElem_range 1 (by norm_num) 2 (2 * data.length - 2) 1 _ _
        (by norm_num) (by rw [length_npSlice]; omega)
        (by rw [length_assignAt, length_assignAt, length_assignAt, length_assignAt,
              List.length_replicate]; omega)]
      rw [npSlice_getD data 0 2 1 1 (by rw [length_npSlice]; omega)]
      rw [show 0 + 1 * 1 = 2 * ((k + 1) % P) + 1 from by
        rw [hkeq, Nat.mod_self]]
      exact getD_eq_some_getElem? data (2 * ((k + 1) % P) + 1) (by
        rw [hkeq, Nat.mod_self]; omega)

/-- Witness for C2 at the spec's example `[(1,2),(3,4),(5,6)]`: the
appended buffer is `[1,2,3,4, 3,4,5,6, 5,6,1,2]`. -/
theorem update_poly_data_segment_buffer_witness :
    (alookup nodeData.clear.polynames "A" = none
     ∧ ([1, 2, 3, 4, 5, 6] : List ℚ).length = 2 * 3)
    ∧ (nodeData.clear.update_poly_data "A" (some [1, 2, 3, 4, 5, 6])).polydata =
        nodeData.clear.polydata ++ polyNewbuf [1, 2, 3, 4, 5, 6]
    ∧ (polyNewbuf [1, 2, 3, 4, 5, 6]).length = 4 * 3
    ∧ polyNewbuf [1, 2, 3, 4, 5, 6] = [1, 2, 3, 4, 3, 4, 5, 6, 5, 6, 1, 2] :=
  ⟨⟨by decide, by decide⟩,
   (update_poly_data_segment_buffer nodeData.clear "A" [1, 2, 3, 4, 5, 6] 3
      (by decide) (by decide)).1,
   (update_poly_data_segment_buffer nodeData.clear "A" [1, 2, 3, 4, 5, 6] 3
      (by decide) (by decide)).2.1,
   by decide⟩

end Bluesky
